import Mathlib

/-!
Verification of the doc2sys client scripts (Frappe DocType form scripts and
web-form glue code) against their natural-language specification.

The scripts are shallowly embedded: each form handler is modelled as a pure
function from the form/document state (and, where relevant, the decoded
server response) to the list of UI events it emits, transcribed from the
JavaScript source.  DocType schema fragments are embedded as Lean structures
holding the declared flags.
-/

namespace Doc2Sys

/-- A UI side effect emitted by a client handler, as performed through the
host framework: `frappe.dom.freeze`/`unfreeze`, `frappe.show_alert`
(with its `indicator` colour), `frappe.msgprint` (title, indicator, message),
jQuery button state changes, the web-form result boxes
(`$result.addClass(cls).html(msg).show()`), opening a popup window, and form
refresh / integration-status refresh requests. -/
inductive UiEvent where
  | freeze (msg : String)
  | unfreeze
  | alert (indicator : String) (msg : String)
  | msgprint (title : String) (indicator : String) (msg : String)
  | disableBtn
  | enableBtn
  | btnSpinner (label : String)
  | btnLabel (label : String)
  | hideResult
  | resultBox (cls : String) (msg : String)
  | openWindow (url : String)
  | refreshForm
  | updateStatus
  deriving DecidableEq, Repr

/-- `true` exactly for the user-visible red displays: a red `show_alert`,
a red `msgprint` dialog, or a web-form `alert-danger` box. -/
def displayColorRed : UiEvent → Bool
  | .alert ind _ => ind == "red"
  | .msgprint _ ind _ => ind == "red"
  | .resultBox cls _ => cls == "alert-danger"
  | _ => false

/-- `true` for any user-visible text display (alert, dialog or result box). -/
def isDisplay : UiEvent → Bool
  | .alert _ _ => true
  | .msgprint _ _ _ => true
  | .resultBox _ _ => true
  | _ => false

/-- Client state of a `Doc2Sys Item` form document (`frm.doc`): the fields the
form script reads.  `text_content = none` models the JavaScript `undefined`.
JS truthiness of the string fields is modelled as being non-empty. -/
structure ItemDoc where
  name : String
  user : String
  single_file : String
  text_content : Option String
  status : String
  islocal : Bool
  unsaved : Bool
  auto_process_file : Bool
  deriving DecidableEq, Repr

/-- Labels of the custom buttons added by the `refresh` handler of
`doc2sys_item.js`, in source order: `Upload File` when the record is saved
and has no file; the `Actions` group (including the unnamed divider button)
when `single_file` is truthy; the `Integrations` group when the record is not
local (`!frm.doc.__islocal`). -/
def itemFormButtons (d : ItemDoc) : List String :=
  (if d.islocal = false ∧ d.single_file = "" then ["Upload File"] else []) ++
  (if d.single_file ≠ "" then
    ["Extract Text Only", "Classify Document", "Extract Data",
     "Extract Data From Azure", "", "Process All Steps", "Reset Usage Metrics"]
   else []) ++
  (if d.islocal = false then ["Refresh Status", "Trigger Integrations"] else [])

/-- Modelled from the spec: the `Doc2Sys Item` doctype schema (not part of
this source set) carries a lifecycle status whose processed state the spec
names `Processed` (lifecycle `Uploaded → Processed`).  The form script never
reads this field. -/
def itemProcessed (d : ItemDoc) : Prop :=
  d.status = "Processed"

/-- A saved item with an attached file that has already been processed. -/
def processedItem : ItemDoc :=
  { name := "D2S-0001", user := "alice", single_file := "/files/a.pdf",
    text_content := some "text", status := "Processed", islocal := false,
    unsaved := false, auto_process_file := false }

/-- A saved item with an attached file that has not been processed yet. -/
def uploadedItem : ItemDoc :=
  { name := "D2S-0002", user := "alice", single_file := "/files/b.pdf",
    text_content := none, status := "Uploaded", islocal := false,
    unsaved := false, auto_process_file := false }

/-- C1, counterexample.  The claim says extraction actions are offered only
before the item is processed and `Trigger Integrations` only after.  The
`refresh` handler gates the buttons on `single_file` and `__islocal` alone,
never on the status: a processed item with a file still offers
`Extract Text Only`, and an unprocessed saved item already offers
`Trigger Integrations`. -/
theorem c1_status_gating_fails :
    ("Extract Text Only" ∈ itemFormButtons processedItem ∧
      itemProcessed processedItem) ∧
    ("Trigger Integrations" ∈ itemFormButtons uploadedItem ∧
      ¬ itemProcessed uploadedItem) := by
  constructor
  · exact ⟨by decide, rfl⟩
  · refine ⟨by decide, ?_⟩
    intro h
    simp [uploadedItem, itemProcessed] at h

/-- C1, amended.  On the `Doc2Sys Item` form the extraction actions
(`Extract Text Only`, `Classify Document`, `Extract Data`,
`Process All Steps`) are offered exactly when a file is attached
(`single_file` non-empty), and `Trigger Integrations` exactly when the record
is saved (not local); neither gate consults the processing status. -/
theorem c1_buttons_gated_by_file_and_saved_state (d : ItemDoc) :
    ("Extract Text Only" ∈ itemFormButtons d ↔ d.single_file ≠ "") ∧
    ("Classify Document" ∈ itemFormButtons d ↔ d.single_file ≠ "") ∧
    ("Extract Data" ∈ itemFormButtons d ↔ d.single_file ≠ "") ∧
    ("Process All Steps" ∈ itemFormButtons d ↔ d.single_file ≠ "") ∧
    ("Trigger Integrations" ∈ itemFormButtons d ↔ d.islocal = false) := by
  unfold itemFormButtons
  by_cases hf : d.single_file = "" <;>
    cases hl : d.islocal <;>
      simp [hf, hl]

/-- Server response shape `{status: str, message: str}` used by the test and
retry endpoints. -/
structure StatusMsg where
  status : String
  message : String
  deriving DecidableEq, Repr

/-- Server response shape `{success: bool, message: str}` used by the folder
processing and language endpoints. -/
structure OkMsg where
  success : Bool
  message : String
  deriving DecidableEq, Repr

/-- Server response shape `{success: bool, url: str, message: str}` returned
by the QuickBooks authorization-URL endpoints. -/
structure AuthMsg where
  success : Bool
  url : String
  message : String
  deriving DecidableEq, Repr

/-- One of the freeze-based action handlers of the `Doc2Sys Item` form
(`doc2sys_item.js` and the older variant): each consists of the same code
with only the freeze message and the success-alert text varying. -/
structure ItemActionHandler where
  freezeMessage : String
  successAlert : String
  deriving DecidableEq, Repr

/-- Events emitted before the remote call: the full screen overlay
(`frappe.dom.freeze(msg)`). -/
def itemActionPre (h : ItemActionHandler) : List UiEvent :=
  [.freeze h.freezeMessage]

/-- The `callback` of an Item action handler: unfreeze, then — only when
`r.message` is truthy — a green alert and a form refresh. -/
def itemActionCallback (h : ItemActionHandler) (hasMessage : Bool) : List UiEvent :=
  .unfreeze :: (if hasMessage then [.alert "green" h.successAlert, .refreshForm] else [])

/-- The `error` handler of an Item action handler: it only unfreezes the UI. -/
def itemActionError (_h : ItemActionHandler) : List UiEvent :=
  [.unfreeze]

/-- `Extract Text Only` (`doc2sys_item.js`, `extract_text_only`). -/
def extractTextOnly : ItemActionHandler :=
  ⟨"Extracting text from document...", "Text extraction completed"⟩

/-- `Classify Document` (`doc2sys_item.js`, `classify_document_only`). -/
def classifyDocument : ItemActionHandler :=
  ⟨"Classifying document...", "Document classification completed"⟩

/-- `Extract Data` (`doc2sys_item.js`, `extract_data_only`). -/
def extractDataOnly : ItemActionHandler :=
  ⟨"Extracting data from document...", "Data extraction completed"⟩

/-- `Extract Data From Azure` (`doc2sys_item.js`, `extract_data_azure`). -/
def extractDataAzure : ItemActionHandler :=
  ⟨"Extracting data from document...", "Data extraction completed"⟩

/-- `Process All Steps` (`doc2sys_item.js`, `process_all`). -/
def processAllSteps : ItemActionHandler :=
  ⟨"Processing document with all steps...", "Document processing completed"⟩

/-- `Reset Usage Metrics` (`doc2sys_item.js`, `reset_usage_metrics`). -/
def resetUsageMetrics : ItemActionHandler :=
  ⟨"Resetting metrics...", "Usage metrics reset successfully"⟩

/-- `Reprocess Document` (older Item form script, `reprocess_document`). -/
def reprocessDocument : ItemActionHandler :=
  ⟨"Reprocessing document...", "Document reprocessing completed"⟩

/-- All freeze-based action handlers of the Item form. -/
def itemActionHandlers : List ItemActionHandler :=
  [extractTextOnly, classifyDocument, extractDataOnly, extractDataAzure,
   processAllSteps, resetUsageMetrics, reprocessDocument]

/-- `before_save` of the Item form: raise the overlay when a file is attached
and the document is unsaved or has no extracted text yet. -/
def itemBeforeSave (d : ItemDoc) : List UiEvent :=
  if d.single_file ≠ "" ∧ (d.unsaved = true ∨ d.text_content = some "" ∨ d.text_content = none)
  then [.freeze "Extracting text from document..."] else []

/-- `after_save` of the Item form: always unfreeze. -/
def itemAfterSave : List UiEvent :=
  [.unfreeze]

/-- The `Process Folder Now` callback (`doc2sys_user_settings.js`): a green
dialog on success, otherwise a red dialog carrying the server message (or
`Unknown error` when no message came back). -/
def processFolderCallback (r : Option OkMsg) : List UiEvent :=
  match r with
  | some m =>
      if m.success then
        [.msgprint "Folder Processing Complete" "green"
          "Files from the monitor folder have been processed."]
      else [.msgprint "Folder Processing Failed" "red" m.message]
  | none => [.msgprint "Folder Processing Failed" "red" "Unknown error"]

/-- The web-form `Test Integration` button state before the call
(`part_000`): disable, spinner, hide the previous result box. -/
def testIntegrationPre : List UiEvent :=
  [.disableBtn, .btnSpinner "Testing...", .hideResult]

/-- The web-form `Test Integration` `callback`: re-enable the button and, when
a message is present, a green or red result box chosen by `r.message.status`. -/
def testIntegrationCallback (r : Option StatusMsg) : List UiEvent :=
  [.enableBtn, .btnLabel "Test Integration"] ++
  (match r with
   | none => []
   | some m =>
       if m.status = "success" then
         [.resultBox "alert-success" ("Success: " ++ m.message)]
       else [.resultBox "alert-danger" ("Error: " ++ m.message)])

/-- The web-form `Test Integration` `error` handler: re-enable and show a red
result box with the error message (or a fixed fallback). -/
def testIntegrationError (errMessage : Option String) : List UiEvent :=
  [.enableBtn, .btnLabel "Test Integration",
   .resultBox "alert-danger" ("Error: " ++ errMessage.getD "Unknown error occurred")]

/-- The claim's uniform failure display: some red alert, dialog or result box
appears among the emitted events. -/
def failureShownRed (es : List UiEvent) : Prop :=
  ∃ e ∈ es, displayColorRed e = true

/-- C2, counterexample.  The error path of the Item form extraction handlers
(e.g. `Extract Text Only`) emits only `unfreeze` — no red alert or dialog at
all — and a falsy success response likewise displays nothing, so a failure
response is silently dropped. -/
theorem c2_silent_failure_drop :
    ¬ failureShownRed (itemActionError extractTextOnly) ∧
    itemActionError extractTextOnly = [.unfreeze] ∧
    itemActionCallback extractTextOnly false = [.unfreeze] := by
  refine ⟨?_, rfl, rfl⟩
  intro hshown
  rcases hshown with ⟨e, hmem, hred⟩
  simp [itemActionError] at hmem
  subst hmem
  simp [displayColorRed] at hred

/-- C2, amended.  Failure responses to `Process Folder Now` are shown as a
red message dialog with the server-supplied text, and failures of the
web-form `Test Integration` call as a red `alert-danger` box carrying the
server (or transport) message; but every Item-form extraction handler drops
failures silently: its error path only unfreezes the UI. -/
theorem c2_failure_display_mixed :
    (∀ m : OkMsg, m.success = false →
      UiEvent.msgprint "Folder Processing Failed" "red" m.message ∈
        processFolderCallback (some m)) ∧
    (∀ m : StatusMsg, m.status ≠ "success" →
      UiEvent.resultBox "alert-danger" ("Error: " ++ m.message) ∈
        testIntegrationCallback (some m)) ∧
    (∀ e : Option String,
      UiEvent.resultBox "alert-danger" ("Error: " ++ e.getD "Unknown error occurred") ∈
        testIntegrationError e) ∧
    (∀ h ∈ itemActionHandlers, itemActionError h = [.unfreeze]) := by
  refine ⟨?_, ?_, ?_, ?_⟩
  · intro m hm
    simp [processFolderCallback, hm]
  · intro m hm
    simp [testIntegrationCallback, hm]
  · intro e
    simp [testIntegrationError]
  · intro h _
    rfl

/-- C2 witness: the amended statement applied at a failing `{success: false}`
folder response, a failing `{status: "error"}` test response, and the
`Extract Text Only` handler. -/
theorem c2_failure_display_mixed_witness :
    UiEvent.msgprint "Folder Processing Failed" "red" "boom" ∈
      processFolderCallback (some ⟨false, "boom"⟩) ∧
    UiEvent.resultBox "alert-danger" "Error: bad key" ∈
      testIntegrationCallback (some ⟨"error", "bad key"⟩) ∧
    itemActionError extractTextOnly = [.unfreeze] := by
  refine ⟨c2_failure_display_mixed.1 ⟨false, "boom"⟩ rfl, ?_, ?_⟩
  · exact c2_failure_display_mixed.2.1 ⟨"error", "bad key"⟩ (by decide)
  · exact c2_failure_display_mixed.2.2.2 extractTextOnly (by decide)

/-- C9.  Every Item-form action handler that freezes the UI before its remote
call unfreezes it on both completion paths, and `after_save` unconditionally
unfreezes whatever overlay `before_save` may have raised. -/
theorem c9_freeze_always_released :
    (∀ h ∈ itemActionHandlers,
      (∃ m, UiEvent.freeze m ∈ itemActionPre h) ∧
      (∀ b, UiEvent.unfreeze ∈ itemActionCallback h b) ∧
      UiEvent.unfreeze ∈ itemActionError h) ∧
    (∀ d : ItemDoc, UiEvent.unfreeze ∈ itemAfterSave ∧
      (itemBeforeSave d = [] ∨
        itemBeforeSave d = [.freeze "Extracting text from document..."])) := by
  constructor
  · intro h _
    refine ⟨⟨h.freezeMessage, ?_⟩, ?_, ?_⟩
    · simp [itemActionPre]
    · intro b
      cases b <;> simp [itemActionCallback]
    · simp [itemActionError]
  · intro d
    refine ⟨by simp [itemAfterSave], ?_⟩
    unfold itemBeforeSave
    by_cases hc : d.single_file ≠ "" ∧
        (d.unsaved = true ∨ d.text_content = some "" ∨ d.text_content = none)
    · right
      simp [hc]
    · left
      simp [hc]

/-- C9 witness: the theorem applied to the `Extract Text Only` handler and to
a concrete saved document with extracted text (whose `before_save` raises no
overlay). -/
theorem c9_freeze_always_released_witness :
    UiEvent.unfreeze ∈ itemActionError extractTextOnly ∧
    UiEvent.unfreeze ∈ itemAfterSave := by
  refine ⟨(c9_freeze_always_released.1 extractTextOnly (by decide)).2.2, ?_⟩
  exact (c9_freeze_always_released.2 processedItem).1

/-- A row of the `Doc2Sys User Integration` child table of
`Doc2Sys User Settings`: the integration target plus its credential fields. -/
structure UserIntegrationRow where
  integration_type : String
  integration_name : String
  enabled : Bool
  api_key : String
  api_secret : String
  access_token : String
  refresh_token : String
  base_url : String
  realm_id : String
  deriving DecidableEq, Repr

/-- The `integration_type` handler of `doc2sys_user_settings.js`: on any
change of the row's integration type, set the six credential fields of that
row to the empty string via `frappe.model.set_value`. -/
def onIntegrationTypeChange (row : UserIntegrationRow) : UserIntegrationRow :=
  { row with api_key := "", api_secret := "", access_token := "",
             refresh_token := "", base_url := "", realm_id := "" }

/-- C3.  Changing `integration_type` resets every sensitive credential field
of the row to the empty string, and touches nothing else: the integration
type, name and enabled flag of the row are preserved. -/
theorem c3_type_change_clears_credentials (row : UserIntegrationRow) :
    (onIntegrationTypeChange row).api_key = "" ∧
    (onIntegrationTypeChange row).api_secret = "" ∧
    (onIntegrationTypeChange row).access_token = "" ∧
    (onIntegrationTypeChange row).refresh_token = "" ∧
    (onIntegrationTypeChange row).base_url = "" ∧
    (onIntegrationTypeChange row).realm_id = "" ∧
    (onIntegrationTypeChange row).integration_type = row.integration_type ∧
    (onIntegrationTypeChange row).integration_name = row.integration_name ∧
    (onIntegrationTypeChange row).enabled = row.enabled := by
  refine ⟨rfl, rfl, rfl, rfl, rfl, rfl, rfl, rfl, rfl⟩

/-- Client state of a `Doc2Sys Integration Log` form document. -/
structure IntegrationLogDoc where
  status : String
  deriving DecidableEq, Repr

/-- Buttons added by the `refresh` handler of
`doc2sys_integration_log.js`: `Retry Integration` exactly when
`frm.doc.status === 'error'`. -/
def integrationLogButtons (d : IntegrationLogDoc) : List String :=
  if d.status = "error" then ["Retry Integration"] else []

/-- One entry of the `get_integration_status` response rendered by
`render_integration_status` in `doc2sys_item.js`. -/
structure IntegrationStatusRow where
  integration_type : String
  status : String
  message : String
  log_name : String
  timestamp : String
  deriving DecidableEq, Repr

/-- Whether `render_integration_status` renders a per-row `Retry` button:
`status.status === 'error' && status.log_name` (a truthy, i.e. non-empty,
log name). -/
def rowRetryShown (s : IntegrationStatusRow) : Bool :=
  s.status == "error" && s.log_name != ""

/-- One `frappe.call` / `frm.call` invocation of the client scripts: the
remote method name and whether the options object carries a `timeout` key or
any cancellation hook (none of them does). -/
structure RemoteCallSpec where
  method : String
  freeze : Bool
  hasTimeout : Bool
  hasCancel : Bool
  deriving DecidableEq, Repr

/-- All remote invocations of the client scripts, transcribed per file:
`doc2sys_item.js`, the older Item form script (with `reprocess_document`),
`doc2sys_item_list.js`, `doc2sys_integration_log.js`, `doc2sys.js`,
`doc2sys_user_settings.js`, `doc2sys_settings.js`, the web-form scripts and
the `api_keys.html` page script. -/
def clientRemoteCalls : List RemoteCallSpec :=
  [⟨"extract_text_only", false, false, false⟩,
   ⟨"classify_document_only", false, false, false⟩,
   ⟨"extract_data_only", false, false, false⟩,
   ⟨"extract_data_azure", false, false, false⟩,
   ⟨"process_all", false, false, false⟩,
   ⟨"reset_usage_metrics", false, false, false⟩,
   ⟨"reprocess_document", false, false, false⟩,
   ⟨"doc2sys.integrations.events.trigger_integrations_on_update", false, false, false⟩,
   ⟨"get_integration_status", false, false, false⟩,
   ⟨"frappe.client.get", false, false, false⟩,
   ⟨"doc2sys.doc2sys.doctype.doc2sys_integration_log.doc2sys_integration_log.retry_integration", false, false, false⟩,
   ⟨"retry_integration", false, false, false⟩,
   ⟨"doc2sys.doc2sys.doctype.doc2sys_item.doc2sys_item.create_item_from_file", false, false, false⟩,
   ⟨"doc2sys.doc2sys.doctype.doc2sys_user_settings.doc2sys_user_settings.get_user_credits", false, false, false⟩,
   ⟨"doc2sys.doc2sys.doctype.doc2sys_user_settings.doc2sys_user_settings.process_user_folder", true, false, false⟩,
   ⟨"add_common_languages", false, false, false⟩,
   ⟨"update_language_download_status", true, false, false⟩,
   ⟨"download_language_models", true, false, false⟩,
   ⟨"list_downloaded_languages", true, false, false⟩,
   ⟨"delete_not_enabled_language_models", true, false, false⟩,
   ⟨"doc2sys.doc2sys.doctype.doc2sys_user_settings.doc2sys_user_settings.test_integration_connection", true, false, false⟩,
   ⟨"test_llm_ocr_connection", true, false, false⟩,
   ⟨"doc2sys.doc2sys.doctype.doc2sys_user_settings.doc2sys_user_settings.delete_old_doc2sys_files", true, false, false⟩,
   ⟨"doc2sys.doc2sys.doctype.doc2sys_user_settings.doc2sys_user_settings.test_integration_user", false, false, false⟩,
   ⟨"doc2sys.doc2sys.doctype.doc2sys_user_settings.doc2sys_user_settings.get_quickbooks_auth_url", false, false, false⟩,
   ⟨"doc2sys.doc2sys.doctype.doc2sys_user_settings.doc2sys_user_settings.get_quickbooks_auth_url_for_user", false, false, false⟩,
   ⟨"doc2sys.doc2sys.doctype.doc2sys_user_settings.doc2sys_user_settings.test_integration", false, false, false⟩,
   ⟨"doc2sys.doc2sys.doctype.doc2sys_settings.doc2sys_settings.train_ml_classifier", true, false, false⟩,
   ⟨"doc2sys.doc2sys.doctype.doc2sys_settings.doc2sys_settings.check_ml_models", true, false, false⟩,
   ⟨"doc2sys.doc2sys.doctype.doc2sys_settings.doc2sys_settings.test_ollama_connection", true, false, false⟩,
   ⟨"doc2sys.doc2sys.doctype.doc2sys_settings.doc2sys_settings.run_folder_monitor", true, false, false⟩,
   ⟨"test_connection", false, false, false⟩,
   ⟨"get_mapping_fields", false, false, false⟩,
   ⟨"doc2sys.doc2sys.utils.portal_api_keys.generate_api_keys_for_portal_user", false, false, false⟩]

/-- C4.  The only retry mechanism is user triggered: on the Integration Log
form the `Retry Integration` button exists iff the log status is `error`; in
the Item integration-status panel a per-row `Retry` button is rendered iff the
row status is `error` and it carries a log name; and no remote call of the
client scripts configures a timeout or a cancellation path. -/
theorem c4_retry_exactly_on_error :
    (∀ d : IntegrationLogDoc,
      "Retry Integration" ∈ integrationLogButtons d ↔ d.status = "error") ∧
    (∀ s : IntegrationStatusRow,
      rowRetryShown s = true ↔ (s.status = "error" ∧ s.log_name ≠ "")) ∧
    (∀ c ∈ clientRemoteCalls, c.hasTimeout = false ∧ c.hasCancel = false) := by
  refine ⟨?_, ?_, ?_⟩
  · intro d
    unfold integrationLogButtons
    by_cases hd : d.status = "error" <;> simp [hd]
  · intro s
    unfold rowRetryShown
    constructor
    · intro hb
      rcases Bool.and_eq_true_iff.mp hb with ⟨h1, h2⟩
      exact ⟨by simpa using h1, by simpa using h2⟩
    · rintro ⟨h1, h2⟩
      simp [h1, h2]
  · intro c hc
    fin_cases hc <;> exact ⟨rfl, rfl⟩

/-- C4 witness: the theorem applied at a failed log, a failed panel row with a
log name, and the `extract_text_only` call. -/
theorem c4_retry_exactly_on_error_witness :
    "Retry Integration" ∈ integrationLogButtons ⟨"error"⟩ ∧
    rowRetryShown ⟨"ERPNext", "error", "401", "LOG-0001", "2025-01-01"⟩ = true ∧
    (⟨"extract_text_only", false, false, false⟩ : RemoteCallSpec).hasTimeout = false := by
  refine ⟨(c4_retry_exactly_on_error.1 ⟨"error"⟩).mpr rfl, ?_, ?_⟩
  · exact (c4_retry_exactly_on_error.2.1 _).mpr ⟨rfl, by decide⟩
  · exact (c4_retry_exactly_on_error.2.2 _ (by decide)).1

/-- A click handler for a UI action, over its remote call's decoded response
type `α`: the events emitted before the call, the remote method invoked, the
success test the handler's own code branches on, and the events emitted by
the `callback` (given `r.message`, `none` when falsy) and by the `error`
handler (given the transport error message). -/
structure WebHandler (α : Type) where
  pre : List UiEvent
  method : String
  isOk : α → Prop
  callback : Option α → List UiEvent
  onError : Option String → List UiEvent

/-- The button (or the frozen UI) is restored. -/
def reenabled (es : List UiEvent) : Prop :=
  UiEvent.enableBtn ∈ es ∨ UiEvent.unfreeze ∈ es

/-- Some non-red user-visible display appears among the events. -/
def nonRedNotice (es : List UiEvent) : Prop :=
  ∃ e ∈ es, isDisplay e = true ∧ displayColorRed e = false

/-- The uniform sequence the spec ascribes to every UI action handler:
disable (or freeze) with a spinner (or freeze message) before the call,
a named remote method, re-enabling on both completion paths, and an alert
coloured by the returned status (red on failure, non-red on success). -/
def followsPattern {α : Type} (h : WebHandler α) : Prop :=
  (UiEvent.disableBtn ∈ h.pre ∨ ∃ m, UiEvent.freeze m ∈ h.pre) ∧
  ((∃ s, UiEvent.btnSpinner s ∈ h.pre) ∨ ∃ m, UiEvent.freeze m ∈ h.pre) ∧
  h.method ≠ "" ∧
  (∀ r, reenabled (h.callback r)) ∧
  (∀ e, reenabled (h.onError e)) ∧
  (∀ m, ¬ h.isOk m → failureShownRed (h.callback (some m))) ∧
  (∀ m, h.isOk m → nonRedNotice (h.callback (some m)))

/-- The web-form `Test Integration` handler (`part_000`), assembled from its
pre-call events, callback and error handler. -/
def testIntegrationHandler : WebHandler StatusMsg :=
  { pre := testIntegrationPre,
    method := "doc2sys.doc2sys.doctype.doc2sys_user_settings.doc2sys_user_settings.test_integration_user",
    isOk := fun m => m.status = "success",
    callback := testIntegrationCallback,
    onError := testIntegrationError }

/-- The `Connect to QuickBooks` button state before the call (`part_000`). -/
def connectQuickBooksPre : List UiEvent :=
  [.disableBtn, .btnSpinner "Connecting...", .hideResult]

/-- The `Connect to QuickBooks` `callback`: re-enable; on
`r.message && r.message.success` open the authorization window and show a blue
info box, otherwise a red box with the server message (or a fixed fallback
when no message came back). -/
def connectQuickBooksCallback (r : Option AuthMsg) : List UiEvent :=
  [.enableBtn, .btnLabel "Connect to QuickBooks"] ++
  (match r with
   | some m =>
       if m.success then
         [.openWindow m.url,
          .resultBox "alert-info"
            "Please complete the authorization in the new window. This page will refresh when complete."]
       else [.resultBox "alert-danger" ("Error: " ++ m.message)]
   | none => [.resultBox "alert-danger" "Error: Failed to get authorization URL"])

/-- The `Connect to QuickBooks` `error` handler. -/
def connectQuickBooksError (errMessage : Option String) : List UiEvent :=
  [.enableBtn, .btnLabel "Connect to QuickBooks",
   .resultBox "alert-danger" ("Error: " ++ errMessage.getD "Unknown error occurred")]

/-- The `Connect to QuickBooks` handler (`part_000`, and both branches of
`part_001` behave identically). -/
def connectQuickBooksHandler : WebHandler AuthMsg :=
  { pre := connectQuickBooksPre,
    method := "doc2sys.doc2sys.doctype.doc2sys_user_settings.doc2sys_user_settings.get_quickbooks_auth_url",
    isOk := fun m => m.success = true,
    callback := connectQuickBooksCallback,
    onError := connectQuickBooksError }

/-- The `Trigger Integrations` button handler of the Item form
(`doc2sys_item.js`): no pre-call UI change at all, a callback that shows a
green alert unconditionally and schedules a status refresh, and no error
handler. -/
def triggerIntegrationsHandler : WebHandler Unit :=
  { pre := [],
    method := "doc2sys.integrations.events.trigger_integrations_on_update",
    isOk := fun _ => True,
    callback := fun _ => [.alert "green" "Integrations triggered", .updateStatus],
    onError := fun _ => [] }

/-- C5, counterexample.  The `Trigger Integrations` handler is a UI action
handler that does not follow the claimed sequence: it disables nothing,
freezes nothing and shows no spinner before its remote call. -/
theorem c5_trigger_integrations_breaks_pattern :
    ¬ followsPattern triggerIntegrationsHandler := by
  intro hp
  rcases hp.1 with hd | ⟨m, hm⟩
  · simp [triggerIntegrationsHandler] at hd
  · simp [triggerIntegrationsHandler] at hm

/-- C5, amended.  The cited web-form handlers — `Test Integration` and
`Connect to QuickBooks` — do follow the sequence (disable with spinner,
remote call, re-enable on both paths, alert coloured by the returned
status), but not every handler does: the Item form's `Trigger Integrations`
handler performs no disable or freeze, has no error path, and its alert is
green regardless of the response. -/
theorem c5_pattern_holds_for_webform_handlers :
    followsPattern testIntegrationHandler ∧
    followsPattern connectQuickBooksHandler ∧
    (∀ r, triggerIntegrationsHandler.callback r =
      [.alert "green" "Integrations triggered", .updateStatus]) ∧
    triggerIntegrationsHandler.pre = [] := by
  refine ⟨?_, ?_, fun r => rfl, rfl⟩
  · refine ⟨Or.inl (by simp [testIntegrationHandler, testIntegrationPre]),
      Or.inl ⟨"Testing...", by simp [testIntegrationHandler, testIntegrationPre]⟩,
      by simp [testIntegrationHandler], ?_, ?_, ?_, ?_⟩
    · intro r
      left
      cases r <;> simp [testIntegrationHandler, testIntegrationCallback]
    · intro e
      left
      simp [testIntegrationHandler, testIntegrationError]
    · intro m hm
      simp only [testIntegrationHandler] at hm
      refine ⟨.resultBox "alert-danger" ("Error: " ++ m.message), ?_, rfl⟩
      simp [testIntegrationHandler, testIntegrationCallback, hm]
    · intro m hm
      simp only [testIntegrationHandler] at hm
      refine ⟨.resultBox "alert-success" ("Success: " ++ m.message), ?_, rfl, rfl⟩
      simp [testIntegrationHandler, testIntegrationCallback, hm]
  · refine ⟨Or.inl (by simp [connectQuickBooksHandler, connectQuickBooksPre]),
      Or.inl ⟨"Connecting...", by simp [connectQuickBooksHandler, connectQuickBooksPre]⟩,
      by simp [connectQuickBooksHandler], ?_, ?_, ?_, ?_⟩
    · intro r
      left
      cases r <;> simp [connectQuickBooksHandler, connectQuickBooksCallback]
    · intro e
      left
      simp [connectQuickBooksHandler, connectQuickBooksError]
    · intro m hm
      simp only [connectQuickBooksHandler] at hm
      have hs : m.success = false := by
        cases h : m.success
        · rfl
        · exact absurd h hm
      refine ⟨.resultBox "alert-danger" ("Error: " ++ m.message), ?_, rfl⟩
      simp [connectQuickBooksHandler, connectQuickBooksCallback, hs]
    · intro m hm
      simp only [connectQuickBooksHandler] at hm
      refine ⟨.resultBox "alert-info"
        "Please complete the authorization in the new window. This page will refresh when complete.",
        ?_, rfl, rfl⟩
      simp [connectQuickBooksHandler, connectQuickBooksCallback, hm]

/-- C5 witness: a consequence of the amended theorem at the concrete
handlers — the `Test Integration` button is disabled before its call. -/
theorem c5_pattern_holds_for_webform_handlers_witness :
    UiEvent.disableBtn ∈ testIntegrationHandler.pre ∨
    ∃ m, UiEvent.freeze m ∈ testIntegrationHandler.pre :=
  c5_pattern_holds_for_webform_handlers.1.1

/-- An event of the QuickBooks OAuth completion poll (`checkAuthInterval`):
the `k`-th interval tick inspecting `authWindow.closed`, the
`clearInterval`, and the `window.location.reload()`. -/
inductive PollEvent where
  | check (k : ℕ)
  | clearTimer
  | reload
  deriving DecidableEq, Repr

/-- The polling interval passed to `setInterval` in the QuickBooks connect
handlers: 500 milliseconds. -/
def pollIntervalMs : ℕ := 500

/-- The poll body run at ticks `k, k+1, ...` for at most `fuel` ticks, where
`closed j` is whether the popup window is closed at the `j`-th tick: each tick
checks the window; the first tick that finds it closed clears the timer and
reloads the page, ending the poll; otherwise polling continues. -/
def pollFrom (closed : ℕ → Bool) : ℕ → ℕ → List PollEvent
  | _, 0 => []
  | k, fuel + 1 =>
      .check k :: (if closed k then [.clearTimer, .reload] else pollFrom closed (k + 1) fuel)

/-- The poll started by the connect handler, observed for `fuel` ticks. -/
def pollTrace (closed : ℕ → Bool) (fuel : ℕ) : List PollEvent :=
  pollFrom closed 0 fuel

/-- The time, in milliseconds after the poll starts, of the `k`-th tick of the
interval timer. -/
def tickTimeMs (k : ℕ) : ℕ := pollIntervalMs * (k + 1)

lemma pollFrom_stops_at_first_closed (closed : ℕ → Bool) :
    ∀ m k fuel, (∀ j, j < m → closed (k + j) = false) → closed (k + m) = true →
      m < fuel →
      pollFrom closed k fuel =
        ((List.range (m + 1)).map (fun j => PollEvent.check (k + j))) ++
          [.clearTimer, .reload] := by
  intro m
  induction m with
  | zero =>
      intro k fuel _ hcl hlt
      match fuel, hlt with
      | fuel + 1, _ =>
        simp at hcl
        have hstep : pollFrom closed k (fuel + 1) =
            [PollEvent.check k, PollEvent.clearTimer, PollEvent.reload] := by
          simp [pollFrom, hcl]
        rw [hstep]
        simp [List.range_succ]
  | succ m ih =>
      intro k fuel hopen hcl hlt
      match fuel, hlt with
      | fuel + 1, hlt =>
        have h0 : closed k = false := by
          simpa using hopen 0 (Nat.succ_pos m)
        have hopen' : ∀ j, j < m → closed (k + 1 + j) = false := by
          intro j hj
          have := hopen (j + 1) (Nat.succ_lt_succ hj)
          simpa [Nat.add_assoc, Nat.add_comm 1 j] using this
        have hcl' : closed (k + 1 + m) = true := by
          simpa [Nat.add_assoc, Nat.add_comm 1 m] using hcl
        have hlt' : m < fuel := Nat.lt_of_succ_lt_succ hlt
        have hstep : pollFrom closed k (fuel + 1) =
            PollEvent.check k :: pollFrom closed (k + 1) fuel := by
          simp [pollFrom, h0]
        rw [hstep, ih (k + 1) fuel hopen' hcl' hlt']
        conv_rhs => rw [List.range_succ_eq_map, List.map_cons, List.map_map]
        simp only [Nat.add_zero, List.cons_append]
        refine congrArg (fun l => PollEvent.check k :: l) ?_
        refine congrArg (fun l => l ++ [PollEvent.clearTimer, PollEvent.reload]) ?_
        apply List.map_congr_left
        intro j _
        simp only [Function.comp_apply]
        congr 1
        omega

lemma pollFrom_never_ends_while_open (closed : ℕ → Bool) :
    ∀ fuel k, (∀ j, j < fuel → closed (k + j) = false) →
      pollFrom closed k fuel = (List.range fuel).map (fun j => PollEvent.check (k + j)) := by
  intro fuel
  induction fuel with
  | zero => intro k _; rfl
  | succ fuel ih =>
      intro k hopen
      have h0 : closed k = false := by
        simpa using hopen 0 (Nat.succ_pos fuel)
      have hopen' : ∀ j, j < fuel → closed (k + 1 + j) = false := by
        intro j hj
        have := hopen (j + 1) (Nat.succ_lt_succ hj)
        simpa [Nat.add_assoc, Nat.add_comm 1 j] using this
      have hstep : pollFrom closed k (fuel + 1) =
          PollEvent.check k :: pollFrom closed (k + 1) fuel := by
        simp [pollFrom, h0]
      rw [hstep, ih (k + 1) hopen']
      rw [List.range_succ_eq_map, List.map_cons, List.map_map]
      simp only [Nat.add_zero]
      refine congrArg (fun l => PollEvent.check k :: l) ?_
      apply List.map_congr_left
      intro j _
      simp only [Function.comp_apply]
      congr 1
      omega

/-- C6.  OAuth completion is detected solely by the fixed 500 ms poll of the
popup: if the window is first found closed at the `m`-th tick (at
`500 * (m + 1)` ms), the trace is exactly the `m + 1` checks followed by
`clearInterval` and the page reload — nothing else ends the poll — and while
the window stays open the trace is checks only: no reload, no other
terminating event. -/
theorem c6_auth_poll_until_window_closed (closed : ℕ → Bool) (m fuel : ℕ)
    (hopen : ∀ j, j < m → closed j = false) (hcl : closed m = true)
    (hfuel : m < fuel) :
    pollIntervalMs = 500 ∧
    pollTrace closed fuel =
      ((List.range (m + 1)).map PollEvent.check) ++ [.clearTimer, .reload] ∧
    tickTimeMs m = 500 * (m + 1) ∧
    (∀ closed' : ℕ → Bool, ∀ n, (∀ j, j < n → closed' j = false) →
      pollTrace closed' n = (List.range n).map PollEvent.check) := by
  refine ⟨rfl, ?_, rfl, ?_⟩
  · have := pollFrom_stops_at_first_closed closed m 0 fuel
      (by simpa using hopen) (by simpa using hcl) hfuel
    simpa [pollTrace] using this
  · intro closed' n hopen'
    have := pollFrom_never_ends_while_open closed' n 0 (by simpa using hopen')
    simpa [pollTrace] using this

/-- C6 witness: a window that closes at the third tick (index 2), polled for
five ticks: three checks, then clear and reload, at 1500 ms. -/
theorem c6_auth_poll_until_window_closed_witness :
    pollTrace (fun j => decide (j = 2)) 5 =
      [.check 0, .check 1, .check 2, .clearTimer, .reload] ∧
    tickTimeMs 2 = 1500 := by
  have h := c6_auth_poll_until_window_closed (fun j => decide (j = 2)) 2 5
    (by decide) (by decide) (by decide)
  refine ⟨?_, h.2.2.1⟩
  rw [h.2.1]
  decide

/-- A declared field of a DocType schema, as in the doctype JSON files. -/
structure DocField where
  fieldname : String
  fieldtype : String
  options : String
  reqd : Bool
  unique : Bool
  deriving DecidableEq, Repr

/-- The `user` field of `doc2sys_user_settings.json`: a required, unique Link
to `User`. -/
def userSettingsUserField : DocField :=
  { fieldname := "user", fieldtype := "Link", options := "User",
    reqd := true, unique := true }

/-- A stored `Doc2Sys User Settings` record: its primary name and its `user`
link value. -/
structure UserSettingsRecord where
  name : String
  user : String
  deriving DecidableEq, Repr

/-- The constraints the host framework enforces for a declared field over the
stored records: `reqd` forbids the empty value, `unique` forbids two records
sharing the field's value. -/
def fieldConstraintHolds (f : DocField) (get : UserSettingsRecord → String)
    (db : List UserSettingsRecord) : Prop :=
  (f.reqd = true → ∀ r ∈ db, get r ≠ "") ∧
  (f.unique = true → db.Pairwise (fun a b => get a ≠ get b))

/-- C7.  The `user` field of the User Settings schema is declared required
and unique, so in any record store satisfying the declared constraints, two
User Settings records referencing the same user are the same record. -/
theorem c7_user_settings_unique_per_user :
    userSettingsUserField.reqd = true ∧ userSettingsUserField.unique = true ∧
    ∀ db : List UserSettingsRecord,
      fieldConstraintHolds userSettingsUserField (fun r => r.user) db →
      ∀ a ∈ db, ∀ b ∈ db, a.user = b.user → a = b := by
  refine ⟨rfl, rfl, ?_⟩
  intro db hdb a ha b hb hab
  by_contra hne
  have hpw : db.Pairwise (fun a b => a.user ≠ b.user) := hdb.2 rfl
  have hsym : Symmetric (fun a b : UserSettingsRecord => a.user ≠ b.user) :=
    fun _ _ h he => h he.symm
  exact hpw.forall hsym ha hb hne hab

/-- C7 witness: the theorem applied to a concrete two-record store satisfying
the constraints. -/
theorem c7_user_settings_unique_per_user_witness :
    (⟨"US-0001", "alice"⟩ : UserSettingsRecord) = ⟨"US-0001", "alice"⟩ := by
  refine c7_user_settings_unique_per_user.2.2
    [⟨"US-0001", "alice"⟩, ⟨"US-0002", "bob"⟩] ⟨?_, ?_⟩
    ⟨"US-0001", "alice"⟩ (by decide) ⟨"US-0001", "alice"⟩ (by decide) rfl
  · intro _ r hr
    fin_cases hr <;> decide
  · intro _
    decide

/-- An event of the multi-file batch creation routine
(`create_doc2sys_items_from_files` in `doc2sys_item_list.js` and
`doc2sys.js`): the progress dialog, one `create_item_from_file` call per
file, the per-callback progress-bar width (in percent, an exact rational)
and processed-counter text, the dialog teardown, the final alert reporting
the counter, and the list refresh. -/
inductive BatchEvent where
  | showDialog
  | call (fileName : String)
  | progressBar (pct : ℚ)
  | processedText (n : ℕ)
  | hideDialog
  | alertCreated (n : ℕ)
  | refreshList
  deriving DecidableEq, Repr

/-- `process_next_file`: each remote call's callback increments `processed`,
sets the bar width to `(processed / total) * 100` percent, updates the
counter text and issues the next call; past the last file it hides the
dialog, reports the counter and refreshes the list. -/
def processNextFile (total : ℕ) : List String → ℕ → List BatchEvent
  | [], processed => [.hideDialog, .alertCreated processed, .refreshList]
  | f :: rest, processed =>
      .call f ::
      .progressBar (((processed + 1 : ℕ) : ℚ) / total * 100) ::
      .processedText (processed + 1) ::
      processNextFile total rest (processed + 1)

/-- `create_doc2sys_items_from_files`: bail out on an empty file list,
otherwise show the progress dialog and start the sequential chain at the
first file. -/
def createItemsFromFiles (files : List String) : List BatchEvent :=
  if files.length = 0 then []
  else .showDialog :: processNextFile files.length files 0

/-- The events of the `i`-th callback round for file `f` (0-based `i`). -/
def batchStep (total : ℕ) (p : ℕ × String) : List BatchEvent :=
  [.call p.2, .progressBar (((p.1 + 1 : ℕ) : ℚ) / total * 100), .processedText (p.1 + 1)]

/-- The file names passed to `create_item_from_file`, in call order. -/
def callsOf (es : List BatchEvent) : List String :=
  es.filterMap (fun e => match e with | .call f => some f | _ => none)

/-- The successive progress-bar widths, in percent. -/
def progressOf (es : List BatchEvent) : List ℚ :=
  es.filterMap (fun e => match e with | .progressBar q => some q | _ => none)

lemma processNextFile_closed_form (total : ℕ) :
    ∀ (fs : List String) (p : ℕ),
      processNextFile total fs p =
        (List.enumFrom p fs).flatMap (batchStep total) ++
          [.hideDialog, .alertCreated (p + fs.length), .refreshList] := by
  intro fs
  induction fs with
  | nil => intro p; simp [processNextFile]
  | cons f rest ih =>
      intro p
      rw [show processNextFile total (f :: rest) p =
        .call f ::
        .progressBar (((p + 1 : ℕ) : ℚ) / total * 100) ::
        .processedText (p + 1) ::
        processNextFile total rest (p + 1) from rfl]
      rw [ih (p + 1)]
      simp only [List.enumFrom, List.flatMap_cons, batchStep, List.cons_append,
        List.nil_append, List.append_assoc, List.length_cons]
      have h : p + (rest.length + 1) = p + 1 + rest.length := by omega
      rw [h]

lemma callsOf_flatMap (total : ℕ) :
    ∀ l : List (ℕ × String),
      callsOf (l.flatMap (batchStep total)) = l.map Prod.snd := by
  intro l
  induction l with
  | nil => rfl
  | cons x xs ih =>
      simp only [List.flatMap_cons, callsOf, List.filterMap_append, batchStep]
      simp only [callsOf] at ih
      rw [ih]
      rfl

lemma enumFrom_map_snd_self :
    ∀ (fs : List String) (p : ℕ), (List.enumFrom p fs).map Prod.snd = fs := by
  intro fs
  induction fs with
  | nil => intro p; rfl
  | cons f rest ih =>
      intro p
      simp only [List.enumFrom, List.map_cons, ih (p + 1)]

lemma progressOf_flatMap (total : ℕ) :
    ∀ (fs : List String) (p : ℕ),
      progressOf ((List.enumFrom p fs).flatMap (batchStep total)) =
        (List.range fs.length).map
          (fun i => ((p + i + 1 : ℕ) : ℚ) / total * 100) := by
  intro fs
  induction fs with
  | nil => intro p; rfl
  | cons f rest ih =>
      intro p
      simp only [List.enumFrom, List.flatMap_cons, batchStep, progressOf,
        List.filterMap_append]
      simp only [progressOf] at ih
      rw [ih (p + 1)]
      simp only [List.length_cons]
      conv_rhs => rw [List.range_succ_eq_map, List.map_cons, List.map_map]
      simp only [List.filterMap_cons, List.cons_append, List.nil_append]
      refine congrArg₂ _ (by norm_num) ?_
      apply List.map_congr_left
      intro j _
      simp only [Function.comp_apply]
      congr 2
      push_cast
      ring

/-- C8.  For an empty upload list no dialog is shown and no call is made; for
`n` files the routine shows the dialog, then strictly sequentially emits, per
file in order, one `create_item_from_file` call followed by its callback's
progress update (`(processed / n) * 100` percent and the processed counter),
and finally hides the dialog, reports exactly `n` created documents and
refreshes the list.  Hence `create_item_from_file` is called exactly once per
file, in order. -/
theorem c8_batch_creates_once_per_file (files : List String) :
    (files = [] → createItemsFromFiles files = []) ∧
    (files ≠ [] →
      createItemsFromFiles files =
        .showDialog :: ((files.enum.flatMap (batchStep files.length)) ++
          [.hideDialog, .alertCreated files.length, .refreshList]) ∧
      callsOf (createItemsFromFiles files) = files ∧
      progressOf (createItemsFromFiles files) =
        (List.range files.length).map
          (fun i => ((i + 1 : ℕ) : ℚ) / files.length * 100)) := by
  constructor
  · intro h
    simp [createItemsFromFiles, h]
  · intro h
    have hlen : files.length ≠ 0 := by
      simpa [List.length_eq_zero] using h
    have hmain : createItemsFromFiles files =
        .showDialog :: ((files.enum.flatMap (batchStep files.length)) ++
          [.hideDialog, .alertCreated files.length, .refreshList]) := by
      unfold createItemsFromFiles
      rw [if_neg hlen, processNextFile_closed_form files.length files 0]
      simp [List.enum]
    refine ⟨hmain, ?_, ?_⟩
    · rw [hmain]
      show callsOf (files.enum.flatMap (batchStep files.length) ++
        [.hideDialog, .alertCreated files.length, .refreshList]) = files
      unfold callsOf
      rw [List.filterMap_append]
      show callsOf (files.enum.flatMap (batchStep files.length)) ++ [] = files
      rw [List.append_nil, callsOf_flatMap, List.enum, enumFrom_map_snd_self]
    · rw [hmain]
      show progressOf (files.enum.flatMap (batchStep files.length) ++
        [.hideDialog, .alertCreated files.length, .refreshList]) =
        (List.range files.length).map
          (fun i => ((i + 1 : ℕ) : ℚ) / files.length * 100)
      unfold progressOf
      rw [List.filterMap_append]
      show progressOf (files.enum.flatMap (batchStep files.length)) ++ [] = _
      rw [List.append_nil, List.enum, progressOf_flatMap]
      apply List.map_congr_left
      intro j _
      norm_num

/-- C8 witness: two files produce the dialog, two ordered calls with 50% and
100% progress, and a final alert reporting 2. -/
theorem c8_batch_creates_once_per_file_witness :
    callsOf (createItemsFromFiles ["a.pdf", "b.pdf"]) = ["a.pdf", "b.pdf"] ∧
    progressOf (createItemsFromFiles ["a.pdf", "b.pdf"]) = [50, 100] ∧
    createItemsFromFiles [] = [] := by
  have h := c8_batch_creates_once_per_file ["a.pdf", "b.pdf"]
  have h2 := (h.2 (by decide))
  refine ⟨h2.2.1, ?_, (c8_batch_creates_once_per_file []).1 rfl⟩
  rw [h2.2.2]
  norm_num [List.range_succ]

/-- Configuration of a `frappe.ui.FileUploader` constructed by the scripts:
the destination folder and whether multiple files are allowed. -/
structure FileUploaderCfg where
  folder : String
  allow_multiple : Bool
  deriving DecidableEq, Repr

/-- The uploader built by the Item form's `Upload File` button
(`doc2sys_item.js`): folder from the Item's `user` field. -/
def itemFormUploader (d : ItemDoc) : FileUploaderCfg :=
  { folder := "Home/Doc2Sys/" ++ d.user, allow_multiple := false }

/-- The uploader built by the list view's `Upload Multiple Files` button
(`doc2sys_item_list.js`): folder from the session user. -/
def listViewUploader (sessionUser : String) : FileUploaderCfg :=
  { folder := "Home/Doc2Sys/" ++ sessionUser, allow_multiple := true }

/-- The uploader built by the web-form list's `Upload` button
(`doc2sys.js`): folder from the session user. -/
def webFormUploader (sessionUser : String) : FileUploaderCfg :=
  { folder := "Home/Doc2Sys/" ++ sessionUser, allow_multiple := true }

/-- The `onload` handler of the Item form: for a new record whose `user` is
unset, default it to the session user. -/
def itemOnload (d : ItemDoc) (sessionUser : String) : ItemDoc :=
  if d.islocal = true ∧ d.user = "" then { d with user := sessionUser } else d

/-- C10.  Every file-upload entry point stores uploads under
`Home/Doc2Sys/` followed by a user identifier — the Item's `user` field on
the Item form, the session user in the list view and the web-form list — and
`onload` defaults the `user` of a new record to the session user exactly
when it is unset. -/
theorem c10_uploads_under_per_user_folder (d : ItemDoc) (s : String) :
    (itemFormUploader d).folder = "Home/Doc2Sys/" ++ d.user ∧
    (listViewUploader s).folder = "Home/Doc2Sys/" ++ s ∧
    (webFormUploader s).folder = "Home/Doc2Sys/" ++ s ∧
    (d.islocal = true → d.user = "" → (itemOnload d s).user = s) ∧
    (d.user ≠ "" → (itemOnload d s).user = d.user) ∧
    (d.islocal = false → itemOnload d s = d) := by
  refine ⟨rfl, rfl, rfl, ?_, ?_, ?_⟩
  · intro hl hu
    simp [itemOnload, hl, hu]
  · intro hu
    simp [itemOnload, hu]
  · intro hl
    simp [itemOnload, hl]

/-- C10 witness: the theorem applied to a concrete new record with unset
user and session user `bob`. -/
theorem c10_uploads_under_per_user_folder_witness :
    (itemFormUploader processedItem).folder = "Home/Doc2Sys/alice" ∧
    (itemOnload
      { name := "new-doc2sys-item", user := "", single_file := "",
        text_content := none, status := "", islocal := true, unsaved := true,
        auto_process_file := false } "bob").user = "bob" := by
  refine ⟨(c10_uploads_under_per_user_folder processedItem "bob").1, ?_⟩
  exact (c10_uploads_under_per_user_folder _ "bob").2.2.2.1 rfl rfl

end Doc2Sys
